import Mathlib

/-!
# Verification of the resume-screening pipeline

Shallow embedding of the application-screening pipeline: the structured
record types (`models.py`), the scoring collaborator (`matcher.py`), the
job-description lookup and overlay (`jd_parser.py`), the notification
collaborator (`email_sender.py`), and the LangGraph orchestration
(`main.py`: the node functions, the conditional error routing and the
unconditional `save_db → send_email` edge).

Python exceptions are modelled as values (`Except` / explicit outcome
constructors), machine floats as rationals, and the outcomes of the
external HTTP/SMTP/DB calls as explicit environment data threaded through
the node functions, so that every node is a total Lean function on the
pipeline state.
-/

namespace ResumeScreening

/-- Python truthiness of an optional string: `None` and `""` are falsy. -/
def truthyStr : Option String → Bool
  | none => false
  | some s => !(s == "")

/-- Python truthiness of optional file bytes: `None` and `b""` are falsy. -/
def truthyBytes : Option (List Nat) → Bool
  | none => false
  | some l => !l.isEmpty

/-- `not s or s.isspace()` in Python: empty or all-whitespace text. -/
def blankText (s : String) : Bool := s.data.all Char.isWhitespace

/-- Python `str.strip()` over the character list of a string. -/
def stripChars (l : List Char) : List Char :=
  ((l.dropWhile Char.isWhitespace).reverse.dropWhile Char.isWhitespace).reverse

/-! ## Structured record types (`models.py`) -/

/-- One work-experience entry of a parsed resume (`models.Experience`). -/
structure Experience where
  job_title : Option String
  company : Option String
  duration : Option String
  description : Option String
deriving DecidableEq

/-- One education entry of a parsed resume (`models.Education`). -/
structure Education where
  degree : Option String
  institution : Option String
  years : Option String
deriving DecidableEq

/-- Structured resume record (`models.ResumeInfo`). -/
structure ResumeInfo where
  candidate_name : Option String
  email : Option String
  phone : Option String
  summary : Option String
  skills : List String
  experience : List Experience
  education : List Education
  misc : List (String × String)
deriving DecidableEq

instance : Inhabited ResumeInfo :=
  ⟨⟨none, none, none, none, [], [], [], []⟩⟩

/-- Structured job-description record (`models.JobDescriptionInfo`);
`job_title` is the only required field. -/
structure JobDescriptionInfo where
  job_title : String
  company : Option String
  location : Option String
  summary : Option String
  responsibilities : List String
  required_skills : List String
  preferred_skills : List String
  required_experience : Option String
  required_education : Option String
  misc : List (String × String)
deriving DecidableEq

instance : Inhabited JobDescriptionInfo :=
  ⟨⟨"", none, none, none, [], [], [], none, none, []⟩⟩

/-! ## Scoring collaborator (`matcher.py`) -/

/-- The JSON object the matching model is asked to return: `match_score`
(absent key modelled as `none`, read with default `0`) and `feedback`
(absent key read with a default message). -/
structure MatchJson where
  match_score : Option ℚ
  feedback : Option String
deriving DecidableEq

/-- Outcome of handling the message content of a DeepSeek matching
response, following the branch structure of `call_deepseek_for_matching`:
the content parses as JSON and `float(...)` conversion succeeds (`valid`),
the JSON parses but score conversion raises (`validBadScore`), the content
is not JSON and carries no markdown fence (`invalid`), a markdown-fenced
JSON block is extracted successfully (`invalidMarkdownOk`), or the fenced
extraction fails too (`invalidMarkdownBad`). -/
inductive MatchContent where
  | valid (d : MatchJson)
  | validBadScore
  | invalid
  | invalidMarkdownOk (d : MatchJson)
  | invalidMarkdownBad
deriving DecidableEq

/-- Outcome of the HTTP call in `call_deepseek_for_matching`: timeout,
request exception, any other exception, a response without `choices`, or a
response whose message content is classified by `MatchContent`. -/
inductive ApiResult where
  | timeout
  | requestError
  | otherError
  | noChoices
  | content (c : MatchContent)
deriving DecidableEq

/-- `default_response` of `call_deepseek_for_matching`. -/
def default_response : ℚ × String :=
  (0, "Error: Could not generate matching results.")

/-- `if not 0 <= score <= 100: score = max(0.0, min(100.0, score))`. -/
def clampScore (score : ℚ) : ℚ :=
  if ¬ (0 ≤ score ∧ score ≤ 100) then max 0 (min 100 score)
  else score

/-- `matcher.call_deepseek_for_matching`: returns `(score, feedback)` on
success (clamping an out-of-range score) and `default_response` on every
failure path (missing API key, timeout, request error, other exception,
missing `choices`, unparseable content without a recoverable markdown
fence, or a score value `float(...)` cannot convert). -/
def call_deepseek_for_matching (apiKey : Option String) (r : ApiResult) :
    ℚ × String :=
  if !(truthyStr apiKey) then default_response
  else
    match r with
    | .timeout => default_response
    | .requestError => default_response
    | .otherError => default_response
    | .noChoices => default_response
    | .content c =>
      match c with
      | .valid d =>
        (clampScore (d.match_score.getD 0),
         d.feedback.getD "Feedback could not be generated.")
      | .validBadScore => default_response
      | .invalid => default_response
      | .invalidMarkdownOk d =>
        (clampScore (d.match_score.getD 0),
         d.feedback.getD "Feedback could not be generated (extracted).")
      | .invalidMarkdownBad => default_response

/-- `matcher.calculate_match_and_feedback`: serialises both records and
delegates to `call_deepseek_for_matching`. The serialisation of the two
pydantic records cannot raise, so the function always returns the
collaborator call's pair (its own `except` fallback is unreachable); the
records do not influence the control flow, only the prompt text. -/
def calculate_match_and_feedback (apiKey : Option String) (r : ApiResult)
    (resume_info : ResumeInfo) (jd_info : JobDescriptionInfo) : ℚ × String :=
  call_deepseek_for_matching apiKey r

/-- The failure paths of `call_deepseek_for_matching`: collaborator
failures on which the source returns `default_response` (missing API key,
timeout, HTTP error, malformed response, unrecoverable content). -/
def apiFailed (apiKey : Option String) (r : ApiResult) : Bool :=
  !(truthyStr apiKey) ||
    (match r with
     | .timeout => true
     | .requestError => true
     | .otherError => true
     | .noChoices => true
     | .content .validBadScore => true
     | .content .invalid => true
     | .content .invalidMarkdownBad => true
     | .content (.valid _) => false
     | .content (.invalidMarkdownOk _) => false)

/-! ## Notification collaborator (`email_sender.py`) -/

/-- Which message body `send_application_email` composes, driven by
`is_qualified = match_score >= 65.0`. -/
inductive EmailTone where
  | congratulatory
  | rejection
deriving DecidableEq

/-- `email_sender.send_application_email`. Returns the source's boolean
result paired with the tone of the message body it composed (`none` when
no message was composed because credentials or the address were missing).
`smtpOk` is the outcome of the SMTP connect/login/send sequence, whose
failures are all caught and turned into `False`. -/
def send_application_email (emailSender emailPassword : Option String)
    (smtpOk : Bool) (to_email candidate_name : Option String)
    (job_title : Option String) (match_score : ℚ) (feedback : String) :
    Bool × Option EmailTone :=
  if !(truthyStr emailSender) || !(truthyStr emailPassword) then (false, none)
  else if !(truthyStr to_email) then (false, none)
  else
    let is_qualified : Bool := decide (65 ≤ match_score)
    let tone := if is_qualified then EmailTone.congratulatory
                else EmailTone.rejection
    (smtpOk, some tone)

/-! ## Job-description lookup and parsing (`jd_parser.py`) -/

/-- One row of the job-descriptions CSV: the `Job Title` and
`Job Description` columns plus the optional `Company` and `Location`
columns (`none` when the column is missing or the cell is NaN). -/
structure JobRow where
  title : String
  description : String
  company : Option String
  location : Option String
deriving DecidableEq

/-- The loaded job-descriptions dataframe, as its list of rows. -/
abbrev Catalog := List JobRow

/-- `.str.strip().str.lower()` normalisation used for title matching. -/
def normTitle (s : String) : String :=
  String.mk ((stripChars s.data).map Char.toLower)

/-- Case- and whitespace-insensitive catalog lookup
(`df_jobs[df_jobs['Job Title'].str.strip().str.lower() == selected.strip().lower()]`,
taking the first matching row via `.iloc[0]`). -/
def lookupJob (df_jobs : Catalog) (selected_job_title : String) :
    Option JobRow :=
  List.find? (fun r => normTitle r.title == normTitle selected_job_title)
    df_jobs

/-- The dictionary produced by `json.loads` on the model's JD-parsing
output, before the catalog overlay. `none` in an optional field means the
key is absent or its value null; a `some ""` is present but falsy. -/
structure JdDict where
  job_title : Option String
  company : Option String
  location : Option String
  summary : Option String
  responsibilities : List String
  required_skills : List String
  preferred_skills : List String
  required_experience : Option String
  required_education : Option String
  misc : List (String × String)
deriving DecidableEq

/-- Outcome of `call_deepseek_for_jd_parsing` as observed by
`parse_job_description`: the call returned `'{}'` or an empty string (every
failure path of the call does), it returned JSON that `json.loads` accepts
and that validates as `JobDescriptionInfo` after the overlay (`parsed`),
or the loaded JSON fails pydantic validation (`invalidModel`). -/
inductive JdLLMResult where
  | emptyJson
  | parsed (d : JdDict)
  | invalidModel
deriving DecidableEq

/-- `jd_parser.parse_job_description`: looks the selected title up in the
catalog, rejects a blank description, consults the extraction model, then
forces `job_title` to the selected title and overlays catalog company and
location when the model omitted them (key absent or value falsy). Raised
exceptions are modelled as `Except.error`. -/
def parse_job_description (llm : JdLLMResult) (selected_job_title : String)
    (df_jobs : Catalog) : Except String JobDescriptionInfo :=
  match lookupJob df_jobs selected_job_title with
  | none =>
    .error ("Job title '" ++ selected_job_title ++
      "' not found in the provided CSV.")
  | some job_row =>
    if blankText job_row.description then
      .error ("Job description text is empty for '" ++
        selected_job_title ++ "'.")
    else
      match llm with
      | .emptyJson =>
        .error "LLM failed to parse job description, returned empty data."
      | .invalidModel =>
        .error "LLM output did not validate against JobDescriptionInfo."
      | .parsed d =>
        let d1 := { d with job_title := some selected_job_title }
        let d2 :=
          if truthyStr job_row.company && !(truthyStr d1.company) then
            { d1 with company := job_row.company }
          else d1
        let d3 :=
          if truthyStr job_row.location && !(truthyStr d2.location) then
            { d2 with location := job_row.location }
          else d2
        .ok
          { job_title := d3.job_title.getD ""
            company := d3.company
            location := d3.location
            summary := d3.summary
            responsibilities := d3.responsibilities
            required_skills := d3.required_skills
            preferred_skills := d3.preferred_skills
            required_experience := d3.required_experience
            required_education := d3.required_education
            misc := d3.misc }

/-! ## Pipeline state and environment (`main.py`) -/

/-- `main.AppState`: the state that flows through the graph. -/
structure AppState where
  uploaded_file_content : Option (List Nat)
  uploaded_filename : Option String
  selected_job_title : Option String
  job_descriptions_df : Option Catalog
  parsed_resume : Option ResumeInfo
  parsed_jd : Option JobDescriptionInfo
  match_score : Option ℚ
  feedback : Option String
  db_save_status : Bool
  email_sent_status : Bool
  error_message : Option String
deriving DecidableEq

/-- Truthiness of the state's `error_message`, exactly the check
`state.get("error_message")` used by every node guard and every
conditional edge. -/
def errTruthy (s : AppState) : Bool := truthyStr s.error_message

/-- Decidable equality for modelled exception outcomes. -/
instance {α β : Type} [DecidableEq α] [DecidableEq β] :
    DecidableEq (Except α β)
  | .ok a, .ok b =>
    if h : a = b then .isTrue (by rw [h]) else .isFalse (by simp [h])
  | .ok _, .error _ => .isFalse (by simp)
  | .error _, .ok _ => .isFalse (by simp)
  | .error a, .error b =>
    if h : a = b then .isTrue (by rw [h]) else .isFalse (by simp [h])

/-- Outcome of reading the job-descriptions CSV in
`load_and_validate_input`: the file is missing, reading raises, the
required columns are absent, or a dataframe is produced. -/
inductive CsvResult where
  | missing
  | readFail
  | badColumns
  | ok (df : Catalog)
deriving DecidableEq

/-- All external-collaborator outcomes for one pipeline run: the CSV read,
the resume extraction (`parse_resume_file`, which raises on failure), the
JD extraction model call, the DeepSeek matching key and HTTP outcome, the
database save (`save_match_results` returns a bool and lets non-sqlite
exceptions propagate), and the SMTP configuration and outcome. -/
structure Env where
  csv : CsvResult
  resumeParse : Except String ResumeInfo
  jdLLM : JdLLMResult
  matchApiKey : Option String
  matchApi : ApiResult
  dbResult : Except String Bool
  emailSender : Option String
  emailPassword : Option String
  smtpOk : Bool
deriving DecidableEq

/-! ## Node functions (`main.py`) -/

/-- `main.load_and_validate_input`: loads the CSV (recording the dataframe
on the state before the input checks run), then requires truthy file
bytes, filename and selected title; on success clears `error_message`, on
any failure records an `Initialization Error`. -/
def load_and_validate_input (env : Env) (s : AppState) : AppState :=
  match env.csv with
  | .missing =>
    { s with error_message := some "Initialization Error: Job descriptions file not found." }
  | .readFail =>
    { s with error_message := some "Initialization Error: could not read job descriptions CSV." }
  | .badColumns =>
    { s with error_message := some "Initialization Error: CSV must contain required columns." }
  | .ok df =>
    let s1 := { s with job_descriptions_df := some df }
    if !(truthyBytes s1.uploaded_file_content) ||
        !(truthyStr s1.uploaded_filename) then
      { s1 with error_message := some "Initialization Error: Resume file not provided." }
    else if !(truthyStr s1.selected_job_title) then
      { s1 with error_message := some "Initialization Error: Job title not selected." }
    else
      { s1 with error_message := none }

/-- `main.process_resume`: skipped when an error is already recorded;
otherwise records the parsed resume and clears the error, or records a
`Resume Parsing Failed` error with `parsed_resume` absent. -/
def process_resume (env : Env) (s : AppState) : AppState :=
  if errTruthy s then s
  else
    match env.resumeParse with
    | .ok parsed_resume =>
      { s with parsed_resume := some parsed_resume, error_message := none }
    | .error e =>
      { s with error_message := some ("Resume Parsing Failed: " ++ e),
               parsed_resume := none }

/-- `main.process_job_description`: skipped when an error is already
recorded; otherwise runs `parse_job_description` on the selected title and
the loaded dataframe, recording the parsed record or a
`Job Description Parsing Failed` error. A missing title or dataframe makes
the call raise in the source (key/attribute errors inside the `try`) and
lands in the same error branch. -/
def process_job_description (env : Env) (s : AppState) : AppState :=
  if errTruthy s then s
  else
    match s.selected_job_title, s.job_descriptions_df with
    | some job_title, some df =>
      match parse_job_description env.jdLLM job_title df with
      | .ok parsed_jd =>
        { s with parsed_jd := some parsed_jd, error_message := none }
      | .error e =>
        { s with error_message := some ("Job Description Parsing Failed: " ++ e),
                 parsed_jd := none }
    | _, _ =>
      { s with error_message := some "Job Description Parsing Failed: missing job title or dataframe.",
               parsed_jd := none }

/-- `main.perform_matching`: on a prior error or a missing record, records
the missing-input error only when no error exists yet; otherwise calls
`calculate_match_and_feedback` (which never raises) and records score and
feedback together, clearing the error. -/
def perform_matching (env : Env) (s : AppState) : AppState :=
  match s.parsed_resume, s.parsed_jd with
  | some resume, some jd =>
    if errTruthy s then s
    else
      let r := calculate_match_and_feedback env.matchApiKey env.matchApi
        resume jd
      { s with match_score := some r.1, feedback := some r.2,
               error_message := none }
  | _, _ =>
    if errTruthy s then s
    else
      { s with error_message := some "Cannot perform matching due to missing parsed resume or JD." }

/-- `main.save_to_database`: skips (with `db_save_status = False`) on a
prior error or a missing score; otherwise records the save outcome,
clearing the error on success, recording the fixed failure message only
when no error exists yet when the save returns `False`, and recording a
`Database Save Failed` error when the call raises. -/
def save_to_database (env : Env) (s : AppState) : AppState :=
  if errTruthy s || s.match_score.isNone then
    { s with db_save_status := false }
  else
    match env.dbResult with
    | .ok true =>
      { s with db_save_status := true, error_message := none }
    | .ok false =>
      if !(errTruthy { s with db_save_status := false }) then
        { s with db_save_status := false,
                 error_message := some "Failed to save results to the database." }
      else { s with db_save_status := false }
    | .error e =>
      { s with error_message := some ("Database Save Failed: " ++ e),
               db_save_status := false }

/-- `main.send_candidate_email`: requires a score, a resume record and
truthy feedback, else records `email_sent_status = False` and the
missing-information error only when no error exists yet; otherwise calls
`send_application_email` (which never raises) with the resume's address
and name, the originally selected title, the score and the feedback, and
records the failure message only when sending failed and no error exists
yet. -/
def send_candidate_email (env : Env) (s : AppState) : AppState :=
  if s.match_score.isNone || s.parsed_resume.isNone ||
      !(truthyStr s.feedback) then
    if !(errTruthy { s with email_sent_status := false }) then
      { s with email_sent_status := false,
               error_message := some "Email not sent due to missing information." }
    else { s with email_sent_status := false }
  else
    let resume_info := s.parsed_resume.getD default
    let r := send_application_email env.emailSender env.emailPassword
      env.smtpOk resume_info.email resume_info.candidate_name
      s.selected_job_title (s.match_score.getD 0) (s.feedback.getD "")
    if !r.1 && !(errTruthy { s with email_sent_status := r.1 }) then
      { s with email_sent_status := r.1,
               error_message := some "Failed to send email (check logs and email config)." }
    else { s with email_sent_status := r.1 }

/-! ## Graph routing (`main.build_graph`)

Each `afterX` function is the remainder of the pipeline once stage `X` has
produced state `s`: the conditional edges after the first four stages jump
to `END` when `state.get("error_message")` is truthy, and `save_db` flows
into `send_email` unconditionally. -/

/-- Rest of the run after the `match` stage: `save_db` then, always,
`send_email` (the one unconditional edge). -/
def afterMatch (env : Env) (s : AppState) : AppState :=
  if errTruthy s then s
  else send_candidate_email env (save_to_database env s)

/-- Rest of the run after the `parse_jd` stage. -/
def afterJd (env : Env) (s : AppState) : AppState :=
  if errTruthy s then s
  else afterMatch env (perform_matching env s)

/-- Rest of the run after the `parse_resume` stage. -/
def afterResume (env : Env) (s : AppState) : AppState :=
  if errTruthy s then s
  else afterJd env (process_job_description env s)

/-- Rest of the run after the `load_validate` stage. -/
def afterLoad (env : Env) (s : AppState) : AppState :=
  if errTruthy s then s
  else afterResume env (process_resume env s)

/-- One full invocation of the compiled graph on an initial state. -/
def runPipeline (env : Env) (s0 : AppState) : AppState :=
  afterLoad env (load_and_validate_input env s0)

/-- The initial state built by the UI before invoking the graph
(`main.initial_state`): inputs set, everything else absent, both status
flags `False`, no error. -/
def initial_state (file_bytes : List Nat) (filename : String)
    (selected_job : String) : AppState :=
  { uploaded_file_content := some file_bytes
    uploaded_filename := some filename
    selected_job_title := some selected_job
    job_descriptions_df := none
    parsed_resume := none
    parsed_jd := none
    match_score := none
    feedback := none
    db_save_status := false
    email_sent_status := false
    error_message := none }

/-! ## Helper lemmas -/

/-- A string starting with a nonempty literal prefix is truthy. -/
theorem truthyStr_append (a b : String) (h : a.data ≠ []) :
    truthyStr (some (a ++ b)) = true := by
  cases a with
  | mk la =>
    cases b with
    | mk lb =>
      simp only [truthyStr, String.append, Bool.not_eq_eq_eq_not, Bool.not_true,
        beq_eq_false_iff_ne, ne_eq, String.ext_iff]
      intro hc
      exact h (List.append_eq_nil.mp hc).1

/-- States whose `error_message` is `none` are not error-truthy. -/
theorem errTruthy_none (s : AppState) (h : s.error_message = none) :
    errTruthy s = false := by
  simp [errTruthy, h, truthyStr]

/-! ## Concrete fixtures for witnesses and counterexamples -/

/-- A one-row job catalog. -/
def dfFix : Catalog :=
  [⟨"Data Engineer", "Build pipelines.", some "Acme", some "Remote"⟩]

/-- A concrete parsed resume with a contactable address. -/
def resumeFix : ResumeInfo :=
  ⟨some "Ann", some "ann@example.com", none, none, ["sql"], [], [], []⟩

/-- A concrete model output for JD parsing. -/
def jdDictFix : JdDict :=
  ⟨some "Data Engineer", some "Acme", none, none, [], [], [], none, none, []⟩

/-- A concrete parsed job-description record. -/
def jdFix : JobDescriptionInfo :=
  ⟨"Data Engineer", some "Acme", some "Remote", none, [], [], [], none, none, []⟩

/-- An environment in which every collaborator call succeeds. -/
def envFix : Env :=
  { csv := .ok dfFix, resumeParse := .ok resumeFix, jdLLM := .parsed jdDictFix,
    matchApiKey := some "key",
    matchApi := .content (.valid ⟨some 80, some "Great fit."⟩),
    dbResult := .ok true, emailSender := some "hr@acme.com",
    emailPassword := some "pw", smtpOk := true }

/-- The UI's initial state for a valid upload and catalog title. -/
def s0Fix : AppState := initial_state [1, 2] "resume.pdf" "Data Engineer"

/-- A state carrying a recorded error. -/
def sErrFix : AppState := { s0Fix with error_message := some "boom" }

/-- The UI's initial state for a title absent from the catalog. -/
def s0NotFound : AppState := initial_state [1, 2] "resume.pdf" "Unknown Job"

/-- A state as produced by a successful `match` stage. -/
def s4Fix : AppState :=
  { s0Fix with job_descriptions_df := some dfFix,
               parsed_resume := some resumeFix, parsed_jd := some jdFix,
               match_score := some 80, feedback := some "Great fit." }

/-- A parsed resume without an email address. -/
def resumeNoMail : ResumeInfo :=
  ⟨some "Bob", none, none, none, ["sql"], [], [], []⟩

/-- A scored run state whose resume has no contactable address. -/
def s4NoMail : AppState :=
  { s0Fix with job_descriptions_df := some dfFix,
               parsed_resume := some resumeNoMail, parsed_jd := some jdFix,
               match_score := some 80, feedback := some "Great fit." }

/-- A state as produced by a successful `parse_jd` stage. -/
def s3Fix : AppState :=
  { s0Fix with job_descriptions_df := some dfFix,
               parsed_resume := some resumeFix, parsed_jd := some jdFix }

/-- An environment whose scoring model returns an out-of-range `101`. -/
def env101Fix : Env :=
  { envFix with matchApi := ApiResult.content (MatchContent.valid ⟨some 101, some "fb"⟩) }

/-- An environment whose scoring model returns an out-of-range `-5`. -/
def envNeg5Fix : Env :=
  { envFix with matchApi := ApiResult.content (MatchContent.valid ⟨some (-5), some "fb"⟩) }

/-! ## More helper lemmas -/

/-- On every failure path, the matching call returns `default_response`. -/
theorem call_matching_failure (apiKey : Option String) (r : ApiResult)
    (h : apiFailed apiKey r = true) :
    call_deepseek_for_matching apiKey r = default_response := by
  unfold apiFailed at h
  unfold call_deepseek_for_matching
  cases hk : truthyStr apiKey
  · simp [hk]
  · simp only [hk, Bool.not_true, Bool.false_or] at h
    cases r with
    | timeout => simp [hk]
    | requestError => simp [hk]
    | otherError => simp [hk]
    | noChoices => simp [hk]
    | content c => cases c <;> simp_all [hk]

/-- The source's clamp agrees with `max 0 (min 100 q)` on every input. -/
theorem clampScore_eq_max_min (q : ℚ) : clampScore q = max 0 (min 100 q) := by
  unfold clampScore
  by_cases h : 0 ≤ q ∧ q ≤ 100
  · rw [if_neg (not_not_intro h), min_eq_right h.2, max_eq_right h.1]
  · rw [if_pos h]

/-- The clamped score always lies in `[0, 100]`. -/
theorem clampScore_bounds (q : ℚ) : 0 ≤ clampScore q ∧ clampScore q ≤ 100 := by
  rw [clampScore_eq_max_min]
  exact ⟨le_max_left 0 _, max_le (by norm_num) (min_le_left _ _)⟩

/-- Score and feedback are set together or absent together. -/
def sfInv (s : AppState) : Prop :=
  s.match_score.isSome = s.feedback.isSome

/-- `load_validate` does not touch score or feedback. -/
theorem sf_load (env : Env) (s : AppState) (h : sfInv s) :
    sfInv (load_and_validate_input env s) := by
  unfold sfInv at *
  unfold load_and_validate_input
  cases env.csv <;> simp only
  case ok df => split <;> [skip; split] <;> exact h
  all_goals exact h

/-- `parse_resume` does not touch score or feedback. -/
theorem sf_resume (env : Env) (s : AppState) (h : sfInv s) :
    sfInv (process_resume env s) := by
  unfold sfInv at *
  unfold process_resume
  split
  · exact h
  · cases env.resumeParse <;> exact h

/-- `parse_jd` does not touch score or feedback. -/
theorem sf_jd (env : Env) (s : AppState) (h : sfInv s) :
    sfInv (process_job_description env s) := by
  unfold sfInv at *
  unfold process_job_description
  split
  · exact h
  · split
    · split <;> exact h
    · exact h

/-- `match` writes score and feedback together or leaves both alone. -/
theorem sf_match (env : Env) (s : AppState) (h : sfInv s) :
    sfInv (perform_matching env s) := by
  unfold sfInv at *
  unfold perform_matching
  split
  · split
    · exact h
    · rfl
  · split <;> exact h

/-- `save_db` does not touch score or feedback. -/
theorem sf_save (env : Env) (s : AppState) (h : sfInv s) :
    sfInv (save_to_database env s) := by
  unfold sfInv at *
  unfold save_to_database
  split
  · exact h
  · cases env.dbResult with
    | ok b =>
      cases b with
      | false =>
        cases hc : errTruthy { s with db_save_status := false } <;>
          simp [hc, h]
      | true => exact h
    | error e => exact h

/-- `send_email` does not touch score or feedback. -/
theorem sf_email (env : Env) (s : AppState) (h : sfInv s) :
    sfInv (send_candidate_email env s) := by
  unfold sfInv at *
  unfold send_candidate_email
  split
  · split <;> exact h
  · simp only [truthyStr]
    split <;> exact h

/-! ## Claim theorems -/

/-- C1: after each of the first four stages (`load_validate`,
`parse_resume`, `parse_jd`, `match`) the engine inspects the run state's
error field; if it is set, control jumps directly to `END`, skipping all
remaining stages including `save_db` and `send_email`. In particular a
selected job title absent from the catalog leaves the pipeline with the
error set, `parsed_jd` absent, and `db_save_status` / `email_sent_status`
still at their initial `false`. -/
theorem short_circuit_contract (env : Env) (s : AppState) :
    (errTruthy (load_and_validate_input env s) = true →
      runPipeline env s = load_and_validate_input env s)
    ∧ (errTruthy s = true → afterLoad env s = s)
    ∧ (errTruthy s = true → afterResume env s = s)
    ∧ (errTruthy s = true → afterJd env s = s)
    ∧ (errTruthy s = true → afterMatch env s = s)
    ∧ (∀ df r t,
        env.csv = CsvResult.ok df →
        env.resumeParse = Except.ok r →
        s.selected_job_title = some t →
        truthyBytes s.uploaded_file_content = true →
        truthyStr s.uploaded_filename = true →
        truthyStr (some t) = true →
        lookupJob df t = none →
        s.db_save_status = false →
        s.email_sent_status = false →
        errTruthy (runPipeline env s) = true ∧
        (runPipeline env s).parsed_jd = none ∧
        (runPipeline env s).db_save_status = false ∧
        (runPipeline env s).email_sent_status = false) := by
  refine ⟨?_, ?_, ?_, ?_, ?_, ?_⟩
  · intro h; simp [runPipeline, afterLoad, h]
  · intro h; simp [afterLoad, h]
  · intro h; simp [afterResume, h]
  · intro h; simp [afterJd, h]
  · intro h; simp [afterMatch, h]
  · intro df r t hcsv hres hsel hbytes hfile ht hlook hdb hemail
    have hload : load_and_validate_input env s =
        { s with job_descriptions_df := some df, error_message := none } := by
      unfold load_and_validate_input
      rw [hcsv]
      simp [hsel, hbytes, hfile, ht]
    have hstep2 : process_resume env (load_and_validate_input env s) =
        { s with job_descriptions_df := some df, parsed_resume := some r,
                 error_message := none } := by
      rw [hload]
      simp [process_resume, errTruthy, truthyStr, hres]
    have hstep3 : process_job_description env
          (process_resume env (load_and_validate_input env s)) =
        { s with job_descriptions_df := some df, parsed_resume := some r,
                 parsed_jd := none,
                 error_message := some ("Job Description Parsing Failed: " ++
                   ("Job title '" ++ t ++ "' not found in the provided CSV.")) } := by
      rw [hstep2]
      simp [process_job_description, errTruthy, truthyStr, hsel,
        parse_job_description, hlook]
    have herr3 : errTruthy (process_job_description env
        (process_resume env (load_and_validate_input env s))) = true := by
      rw [hstep3]
      exact truthyStr_append _ _ (by decide)
    have hfinal : runPipeline env s = process_job_description env
        (process_resume env (load_and_validate_input env s)) := by
      unfold runPipeline afterLoad
      rw [errTruthy_none _ (by rw [hload])]
      simp only [Bool.false_eq_true, if_false]
      unfold afterResume
      rw [errTruthy_none _ (by rw [hstep2])]
      simp only [Bool.false_eq_true, if_false]
      unfold afterJd
      rw [herr3]
      simp
    rw [hfinal, hstep3]
    refine ⟨?_, rfl, hdb, hemail⟩
    rw [← hstep3]
    exact herr3

/-- Witness for C1: the short-circuit contract instantiated at a missing
catalog file, at a state with a recorded error, and at a run whose
selected title is absent from the catalog. -/
theorem short_circuit_contract_witness :
    (runPipeline { envFix with csv := CsvResult.missing } s0Fix =
      load_and_validate_input { envFix with csv := CsvResult.missing } s0Fix)
    ∧ afterLoad envFix sErrFix = sErrFix
    ∧ afterResume envFix sErrFix = sErrFix
    ∧ afterJd envFix sErrFix = sErrFix
    ∧ afterMatch envFix sErrFix = sErrFix
    ∧ (errTruthy (runPipeline envFix s0NotFound) = true ∧
       (runPipeline envFix s0NotFound).parsed_jd = none ∧
       (runPipeline envFix s0NotFound).db_save_status = false ∧
       (runPipeline envFix s0NotFound).email_sent_status = false) := by
  have A := short_circuit_contract { envFix with csv := CsvResult.missing } s0Fix
  have B := short_circuit_contract envFix sErrFix
  have C := short_circuit_contract envFix s0NotFound
  exact ⟨A.1 (by decide), B.2.1 (by decide), B.2.2.1 (by decide),
    B.2.2.2.1 (by decide), B.2.2.2.2.1 (by decide),
    C.2.2.2.2.2 dfFix resumeFix "Unknown Job" rfl rfl rfl (by decide)
      (by decide) (by decide) (by decide) rfl rfl⟩

/-- C2: the `save_db → send_email` transition is unconditional: every run
that reaches `save_db` continues to `send_email` even if the save failed
or recorded an error; when the save returns `False` but scoring succeeded,
notification is still attempted (and succeeds when credentials, address
and the SMTP session are good), `db_save_status` is `false`, and the
persistence-specific error is recorded because no earlier error existed. -/
theorem persist_to_notify_unconditional (env : Env) (s : AppState) :
    (errTruthy s = false →
      afterMatch env s = send_candidate_email env (save_to_database env s))
    ∧ (∀ q r fb,
        errTruthy s = false →
        env.dbResult = Except.ok false →
        s.match_score = some q →
        s.parsed_resume = some r →
        s.feedback = some fb →
        truthyStr (some fb) = true →
        truthyStr env.emailSender = true →
        truthyStr env.emailPassword = true →
        truthyStr r.email = true →
        env.smtpOk = true →
        (afterMatch env s).email_sent_status = true ∧
        (afterMatch env s).db_save_status = false ∧
        (afterMatch env s).error_message =
          some "Failed to save results to the database.") := by
  constructor
  · intro h; simp [afterMatch, h]
  · intro q r fb herr hdbres hscore hres hfb htfb hsender hpass hmail hsmtp
    have hsave : save_to_database env s =
        { s with db_save_status := false,
                 error_message := some "Failed to save results to the database." } := by
      simp [save_to_database, herr, hscore, hdbres, errTruthy]
      simp [errTruthy] at herr
      simp [herr]
    have hsend : afterMatch env s =
        { s with db_save_status := false,
                 error_message := some "Failed to save results to the database.",
                 email_sent_status := true } := by
      unfold afterMatch
      rw [herr]
      simp only [Bool.false_eq_true, if_false]
      rw [hsave]
      have hfbne : ¬ fb = "" := by simpa [truthyStr] using htfb
      simp only [truthyStr] at hsender hpass hmail
      simp [send_candidate_email, hscore, hres, hfb, errTruthy, truthyStr,
        send_application_email, hsender, hpass, hmail, hsmtp, hfbne]
    rw [hsend]
    exact ⟨rfl, rfl, rfl⟩

/-- Witness for C2: a run whose database save returns `False` while
scoring succeeded still attempts and completes the notification. -/
theorem persist_to_notify_unconditional_witness :
    (afterMatch { envFix with dbResult := Except.ok false } s4Fix =
      send_candidate_email { envFix with dbResult := Except.ok false }
        (save_to_database { envFix with dbResult := Except.ok false } s4Fix))
    ∧ ((afterMatch { envFix with dbResult := Except.ok false } s4Fix).email_sent_status = true
       ∧ (afterMatch { envFix with dbResult := Except.ok false } s4Fix).db_save_status = false
       ∧ (afterMatch { envFix with dbResult := Except.ok false } s4Fix).error_message =
           some "Failed to save results to the database.") := by
  have h := persist_to_notify_unconditional
    { envFix with dbResult := Except.ok false } s4Fix
  exact ⟨h.1 (by decide),
    h.2 80 resumeFix "Great fit." (by decide) rfl rfl rfl rfl (by decide)
      (by decide) (by decide) (by decide) rfl⟩

/-- C3: first error wins: on a state whose error field is set, every later
stage leaves the error text unchanged, at most adding the status flags
(`db_save_status = false` on the skipped save). -/
theorem first_error_wins (env : Env) (s : AppState) (h : errTruthy s = true) :
    (process_resume env s).error_message = s.error_message
    ∧ (process_job_description env s).error_message = s.error_message
    ∧ (perform_matching env s).error_message = s.error_message
    ∧ (save_to_database env s).error_message = s.error_message
    ∧ (save_to_database env s).db_save_status = false
    ∧ (send_candidate_email env s).error_message = s.error_message := by
  refine ⟨?_, ?_, ?_, ?_, ?_, ?_⟩
  · simp [process_resume, h]
  · simp [process_job_description, h]
  · cases hr : s.parsed_resume <;> cases hj : s.parsed_jd <;>
      simp [perform_matching, hr, hj, h]
  · simp [save_to_database, h]
  · simp [save_to_database, h]
  · unfold send_candidate_email
    split
    · simp [errTruthy] at h ⊢
      simp [h]
    · simp [errTruthy] at h ⊢
      simp [h]

/-- Counterexample to C4 as stated: a scoring-collaborator timeout does
not set the error field and does not halt the pipeline — on an otherwise
successful run the final state has no error, the save and the
notification both executed and succeeded, and the recorded score is the
default `0`. -/
theorem score_failure_halts_counterexample :
    (runPipeline { envFix with matchApi := ApiResult.timeout } s0Fix).error_message = none
    ∧ (runPipeline { envFix with matchApi := ApiResult.timeout } s0Fix).db_save_status = true
    ∧ (runPipeline { envFix with matchApi := ApiResult.timeout } s0Fix).email_sent_status = true
    ∧ (runPipeline { envFix with matchApi := ApiResult.timeout } s0Fix).match_score = some 0 := by
  exact ⟨by decide, by decide, by decide, by decide⟩

/-- C4 amended: if the scoring-collaborator call fails (missing API key,
transport error, timeout, or malformed/unparseable response), the `match`
stage records score `0` together with the fixed error feedback text,
leaves the error field clear, and the pipeline proceeds to `save_db` and
`send_email` rather than halting. -/
theorem score_failure_records_zero (env : Env) (s : AppState)
    (r : ResumeInfo) (jd : JobDescriptionInfo)
    (hres : s.parsed_resume = some r) (hjd : s.parsed_jd = some jd)
    (herr : errTruthy s = false)
    (hfail : apiFailed env.matchApiKey env.matchApi = true) :
    (perform_matching env s).match_score = some 0
    ∧ (perform_matching env s).feedback =
        some "Error: Could not generate matching results."
    ∧ (perform_matching env s).error_message = none
    ∧ afterJd env s = afterMatch env (perform_matching env s) := by
  have hcall := call_matching_failure env.matchApiKey env.matchApi hfail
  refine ⟨?_, ?_, ?_, ?_⟩
  · simp [perform_matching, hres, hjd, herr, calculate_match_and_feedback,
      hcall, default_response]
  · simp [perform_matching, hres, hjd, herr, calculate_match_and_feedback,
      hcall, default_response]
  · simp [perform_matching, hres, hjd, herr, calculate_match_and_feedback,
      hcall, default_response]
  · simp [afterJd, herr]

/-- Witness for C4 amended: a timeout of the scoring call on a run that
had parsed both records. -/
theorem score_failure_records_zero_witness :
    (perform_matching { envFix with matchApi := ApiResult.timeout } s3Fix).match_score = some 0
    ∧ (perform_matching { envFix with matchApi := ApiResult.timeout } s3Fix).feedback =
        some "Error: Could not generate matching results."
    ∧ (perform_matching { envFix with matchApi := ApiResult.timeout } s3Fix).error_message = none
    ∧ afterJd { envFix with matchApi := ApiResult.timeout } s3Fix =
        afterMatch { envFix with matchApi := ApiResult.timeout }
          (perform_matching { envFix with matchApi := ApiResult.timeout } s3Fix) :=
  score_failure_records_zero { envFix with matchApi := ApiResult.timeout }
    s3Fix resumeFix jdFix rfl rfl (by decide) (by decide)

/-- C5: the notification tone threshold is inclusive at exactly `65`:
whenever a message is composed, the congratulatory body is chosen iff
`65 ≤ score`, and the rejection body iff `score < 65`. -/
theorem email_threshold_inclusive (sender password : Option String)
    (smtpOk : Bool) (to_email name jobt : Option String) (score : ℚ)
    (fb : String) (hs : truthyStr sender = true)
    (hp : truthyStr password = true) (ht : truthyStr to_email = true) :
    ((send_application_email sender password smtpOk to_email name jobt
        score fb).2 = some EmailTone.congratulatory ↔ 65 ≤ score)
    ∧ ((send_application_email sender password smtpOk to_email name jobt
        score fb).2 = some EmailTone.rejection ↔ score < 65) := by
  by_cases h : 65 ≤ score
  · simp [send_application_email, hs, hp, ht, h, not_lt.mpr h]
  · simp [send_application_email, hs, hp, ht, h, lt_of_not_ge h]

/-- Witness for C5: score `65` composes the congratulatory body; score
`64.99` composes the rejection body. -/
theorem email_threshold_inclusive_witness :
    (send_application_email (some "hr@acme.com") (some "pw") true
        (some "ann@example.com") (some "Ann") (some "Data Engineer")
        65 "fb").2 = some EmailTone.congratulatory
    ∧ (send_application_email (some "hr@acme.com") (some "pw") true
        (some "ann@example.com") (some "Ann") (some "Data Engineer")
        (Rat.divInt 6499 100) "fb").2 = some EmailTone.rejection := by
  have A := email_threshold_inclusive (some "hr@acme.com") (some "pw") true
    (some "ann@example.com") (some "Ann") (some "Data Engineer") 65 "fb"
    (by decide) (by decide) (by decide)
  have B := email_threshold_inclusive (some "hr@acme.com") (some "pw") true
    (some "ann@example.com") (some "Ann") (some "Data Engineer")
    (Rat.divInt 6499 100) "fb" (by decide) (by decide) (by decide)
  exact ⟨A.1.mpr (by decide), B.2.mpr (by decide)⟩

/-- C6: any score the scoring collaborator returns is clamped into
`[0, 100]` before being recorded in the run state: the recorded score is
exactly `max 0 (min 100 s)`. -/
theorem score_clamped (env : Env) (s : AppState) (r : ResumeInfo)
    (jd : JobDescriptionInfo) (d : MatchJson) (q : ℚ)
    (hres : s.parsed_resume = some r) (hjd : s.parsed_jd = some jd)
    (herr : errTruthy s = false)
    (hkey : truthyStr env.matchApiKey = true)
    (happy : env.matchApi = ApiResult.content (MatchContent.valid d)
      ∨ env.matchApi = ApiResult.content (MatchContent.invalidMarkdownOk d))
    (hsc : d.match_score = some q) :
    (perform_matching env s).match_score = some (max 0 (min 100 q)) := by
  rcases happy with h | h <;>
    simp [perform_matching, hres, hjd, herr, calculate_match_and_feedback,
      call_deepseek_for_matching, hkey, h, hsc, clampScore_eq_max_min]

/-- Witness for C6: a returned `101` is recorded as `100`; a returned
`-5` is recorded as `0`. -/
theorem score_clamped_witness :
    (perform_matching env101Fix s3Fix).match_score = some 100
    ∧ (perform_matching envNeg5Fix s3Fix).match_score = some 0 := by
  have A := score_clamped env101Fix s3Fix resumeFix jdFix
    ⟨some 101, some "fb"⟩ 101 rfl rfl (by decide) (by decide) (Or.inl rfl) rfl
  have B := score_clamped envNeg5Fix s3Fix resumeFix jdFix
    ⟨some (-5), some "fb"⟩ (-5) rfl rfl (by decide) (by decide) (Or.inl rfl) rfl
  exact ⟨A.trans (by decide), B.trans (by decide)⟩

/-- C7: every successful job-description extraction carries the
originally selected identifier as its title (the catalog is authoritative
for the title), and catalog company/location are written onto the record
exactly when the model omitted them (key absent or value empty) and the
catalog value itself is non-empty. -/
theorem jd_title_and_overlay (d : JdDict) (selected : String)
    (df : Catalog) (row : JobRow) (jd : JobDescriptionInfo)
    (hrow : lookupJob df selected = some row)
    (hok : parse_job_description (JdLLMResult.parsed d) selected df =
      Except.ok jd) :
    jd.job_title = selected
    ∧ (truthyStr d.company = true → jd.company = d.company)
    ∧ (truthyStr d.company = false → truthyStr row.company = true →
        jd.company = row.company)
    ∧ (truthyStr d.location = true → jd.location = d.location)
    ∧ (truthyStr d.location = false → truthyStr row.location = true →
        jd.location = row.location) := by
  unfold parse_job_description at hok
  rw [hrow] at hok
  by_cases hb : blankText row.description = true
  · simp [hb] at hok
  · simp only [hb, Bool.false_eq_true, if_false, Except.ok.injEq] at hok
    subst hok
    refine ⟨?_, ?_, ?_, ?_, ?_⟩
    · split <;> split <;> rfl
    · intro hc
      simp [hc]
      split <;> rfl
    · intro hc hrc
      simp [hc, hrc]
      split <;> rfl
    · intro hl
      split <;> simp [hl]
    · intro hl hrl
      split <;> simp [hl, hrl]

/-- Witness for C7: the model omitted `location` and gave a company, the
catalog supplies both; the parsed record keeps the model's company, takes
the catalog's location, and carries the selected title. -/
theorem jd_title_and_overlay_witness :
    parse_job_description (JdLLMResult.parsed jdDictFix) "Data Engineer"
        dfFix = Except.ok jdFix
    ∧ jdFix.job_title = "Data Engineer"
    ∧ jdFix.company = jdDictFix.company
    ∧ jdFix.location = some "Remote" := by
  have h := jd_title_and_overlay jdDictFix "Data Engineer" dfFix
    ⟨"Data Engineer", "Build pipelines.", some "Acme", some "Remote"⟩
    jdFix (by decide) (by decide)
  exact ⟨by decide, h.1, h.2.1 (by decide),
    h.2.2.2.2 (by decide) (by decide)⟩

/-- C8: the `send_email` stage requires a score, a resume record and
(truthy) feedback; when any is missing, `email_sent_status` is `false`
and the explanatory error is recorded only when no error already exists;
and the notification collaborator itself returns `false` (not a raised
error) when the outbound-mail credentials or the recipient address are
unavailable. -/
theorem notify_requirements (env : Env) (s : AppState) :
    ((s.match_score.isNone || s.parsed_resume.isNone ||
        !(truthyStr s.feedback)) = true →
      (send_candidate_email env s).email_sent_status = false
      ∧ (errTruthy s = true →
          (send_candidate_email env s).error_message = s.error_message)
      ∧ (errTruthy s = false →
          (send_candidate_email env s).error_message =
            some "Email not sent due to missing information."))
    ∧ (∀ q r fb,
        s.match_score = some q → s.parsed_resume = some r →
        s.feedback = some fb → truthyStr (some fb) = true →
        truthyStr r.email = false →
        (send_candidate_email env s).email_sent_status = false
        ∧ (errTruthy s = false →
            (send_candidate_email env s).error_message =
              some "Failed to send email (check logs and email config).")
        ∧ (errTruthy s = true →
            (send_candidate_email env s).error_message = s.error_message))
    ∧ (∀ sender password smtpOk to_email name jobt q fb,
        (truthyStr sender = false ∨ truthyStr password = false ∨
          truthyStr to_email = false) →
        (send_application_email sender password smtpOk to_email name jobt
          q fb).1 = false) := by
  refine ⟨?_, ?_, ?_⟩
  · intro hmiss
    unfold send_candidate_email
    rw [if_pos hmiss]
    refine ⟨?_, ?_, ?_⟩
    · split <;> rfl
    · intro herr
      simp only [errTruthy] at herr ⊢
      simp [herr]
    · intro herr
      simp only [errTruthy] at herr ⊢
      simp [herr]
  · intro q r fb hq hr hfb htfb hmail
    have hsend : (send_application_email env.emailSender env.emailPassword
        env.smtpOk r.email r.candidate_name s.selected_job_title q fb).1 =
        false := by
      unfold send_application_email
      by_cases h1 : (!(truthyStr env.emailSender) ||
          !(truthyStr env.emailPassword)) = true <;> simp [h1, hmail]
    have hfbne : ¬ fb = "" := by simpa [truthyStr] using htfb
    cases he : truthyStr s.error_message <;>
      simp [send_candidate_email, hq, hr, hfb, hfbne, htfb, hsend, errTruthy, he]
  · intro sender password smtpOk to_email name jobt q fb hmiss
    unfold send_application_email
    rcases hmiss with hc | hc | hc
    · simp [hc]
    · simp [hc]
    · by_cases h1 : (!(truthyStr sender) || !(truthyStr password)) = true <;>
        simp [h1, hc]

/-- Witness for C8: a state lacking a score (and with no prior error)
leaves `email_sent_status = false` with the explanatory message, and the
collaborator returns `false` on missing credentials. -/
theorem notify_requirements_witness :
    (send_candidate_email envFix s3Fix).email_sent_status = false
    ∧ (send_candidate_email envFix s3Fix).error_message =
        some "Email not sent due to missing information."
    ∧ (send_candidate_email envFix s4NoMail).error_message =
        some "Failed to send email (check logs and email config)."
    ∧ (send_application_email none none true (some "ann@example.com")
        (some "Ann") (some "Data Engineer") 80 "fb").1 = false := by
  have h := notify_requirements envFix s3Fix
  refine ⟨(h.1 (by decide)).1, (h.1 (by decide)).2.2 (by decide), ?_, ?_⟩
  · exact ((notify_requirements envFix s4NoMail).2.1 80 resumeNoMail
      "Great fit." rfl rfl rfl (by decide) (by decide)).2.1 (by decide)
  · exact h.2.2 none none true (some "ann@example.com") (some "Ann")
      (some "Data Engineer") 80 "fb" (Or.inl (by decide))

/-- C9: score and feedback are set together or absent together in every
state the pipeline can produce from a state satisfying the invariant (in
particular from the UI's initial state, where both are absent). -/
theorem score_feedback_together (env : Env) (s0 : AppState)
    (h : sfInv s0) : sfInv (runPipeline env s0) := by
  unfold runPipeline afterLoad
  split
  · exact sf_load env s0 h
  · unfold afterResume
    split
    · exact sf_resume env _ (sf_load env s0 h)
    · unfold afterJd
      split
      · exact sf_jd env _ (sf_resume env _ (sf_load env s0 h))
      · unfold afterMatch
        split
        · exact sf_match env _
            (sf_jd env _ (sf_resume env _ (sf_load env s0 h)))
        · exact sf_email env _ (sf_save env _ (sf_match env _
            (sf_jd env _ (sf_resume env _ (sf_load env s0 h)))))

/-- Witness for C9: the invariant holds for the final state of a fully
successful run started from the UI's initial state. -/
theorem score_feedback_together_witness :
    sfInv (runPipeline envFix s0Fix) :=
  score_feedback_together envFix s0Fix rfl

/-- C10 (implicit): the scoring function is total — it returns a value in
`[0, 100]` for every input and environment outcome, and on every
collaborator failure (missing API key, HTTP error, timeout, malformed or
unparseable response) it returns exactly score `0` with the fixed
error-feedback text instead of signalling a failure. -/
theorem scoring_total (apiKey : Option String) (r : ApiResult)
    (resume_info : ResumeInfo) (jd_info : JobDescriptionInfo) :
    0 ≤ (calculate_match_and_feedback apiKey r resume_info jd_info).1
    ∧ (calculate_match_and_feedback apiKey r resume_info jd_info).1 ≤ 100
    ∧ (apiFailed apiKey r = true →
        calculate_match_and_feedback apiKey r resume_info jd_info =
          (0, "Error: Could not generate matching results.")) := by
  have hchar : calculate_match_and_feedback apiKey r resume_info jd_info =
      default_response ∨
      ∃ x y, calculate_match_and_feedback apiKey r resume_info jd_info =
        (clampScore x, y) := by
    unfold calculate_match_and_feedback call_deepseek_for_matching
    cases hk : truthyStr apiKey
    · simp
    · cases r with
      | content c =>
        cases c <;> simp
      | _ => simp
  have hbounds :
      0 ≤ (calculate_match_and_feedback apiKey r resume_info jd_info).1 ∧
      (calculate_match_and_feedback apiKey r resume_info jd_info).1 ≤ 100 := by
    rcases hchar with hd | ⟨x, y, hxy⟩
    · rw [hd]
      exact ⟨le_refl 0, by norm_num [default_response]⟩
    · rw [hxy]
      exact clampScore_bounds x
  refine ⟨hbounds.1, hbounds.2, ?_⟩
  intro hfail
  unfold calculate_match_and_feedback
  exact call_matching_failure apiKey r hfail

/-- Witness for C10: a missing API key yields exactly `(0, fixed error
text)`. -/
theorem scoring_total_witness :
    calculate_match_and_feedback none ApiResult.timeout resumeFix jdFix =
      (0, "Error: Could not generate matching results.") :=
  (scoring_total none ApiResult.timeout resumeFix jdFix).2.2 (by decide)

/-- Witness for C3: first-error preservation at a state carrying the
error text `"boom"`. -/
theorem first_error_wins_witness :
    (process_resume envFix sErrFix).error_message = sErrFix.error_message
    ∧ (process_job_description envFix sErrFix).error_message = sErrFix.error_message
    ∧ (perform_matching envFix sErrFix).error_message = sErrFix.error_message
    ∧ (save_to_database envFix sErrFix).error_message = sErrFix.error_message
    ∧ (save_to_database envFix sErrFix).db_save_status = false
    ∧ (send_candidate_email envFix sErrFix).error_message = sErrFix.error_message :=
  first_error_wins envFix sErrFix (by decide)

end ResumeScreening
